import Mathlib

/-
Shallow embedding of the configuration-persistence subsystem of the
repository (src/backend/open_webui/config.py and
src/backend/open_webui/apps/webui/internal/db.py).

JSON documents are modelled as a tagged tree, Python exceptions as an
explicit error type, and each Python function as a Lean function that
returns `Except PyError` results together with explicit state.
-/

/-- A JSON value as stored in the `data` column and handled by the
configuration helpers: null, booleans, numbers, strings, arrays and
objects (ordered key-value lists, as Python dicts preserve insertion
order). -/
inductive Json where
  | null : Json
  | bool (b : Bool) : Json
  | num (n : Int) : Json
  | str (s : String) : Json
  | arr (elems : List Json) : Json
  | obj (fields : List (String × Json)) : Json

/-- The Python exceptions that the embedded code can raise. -/
inductive PyError where
  | attributeError (msg : String)
  | typeError (msg : String)
  | keyError (key : String)
  | assertionError (msg : String)
  | exc (msg : String)
deriving DecidableEq, Repr

/-- The dynamic Python value that `get_db` can hand to its callers:
`none` models Python `None` (what the spec expects in degraded mode),
`generator` models a generator object (what calling the generator
function `get_session` actually returns), and `session` models a real
SQLAlchemy session produced by `SessionLocal()` (the value the bodies of
get_config, save_to_db and reset_config are written for; no execution
path of the module ever produces it, because `get_db` never iterates the
generator). -/
inductive PyValue where
  | none : PyValue
  | generator : PyValue
  | session : PyValue
deriving DecidableEq, Repr

/-- The environment configuration relevant here: DATABASE_URL
(`Option.none` = unset; `some ""` = set but empty, which is falsy in
Python, so the engine and SessionLocal are also not created). -/
structure Env where
  databaseUrl : Option String

/-- Calling `get_session()` (db.py lines 114-122). The body of
get_session contains a `yield` statement, so it is a Python generator
function: calling it returns a fresh generator object at once, without
executing any of the body - in particular the `if not SessionLocal`
check never runs at call time. This holds for every configuration,
which is why the argument is unused. -/
def get_session_call (_env : Env) : PyValue :=
  PyValue.generator

/-- The value bound by `with get_db() as db:` (db.py lines 102-111):
get_db assigns `db = get_session()` and yields that value unchanged. -/
def get_db_yield (env : Env) : PyValue :=
  get_session_call env

/-- The DEFAULT_CONFIG document of config.py lines 45-60, verbatim. -/
def DEFAULT_CONFIG : Json :=
  Json.obj [
    ("version", Json.num 0),
    ("ui", Json.obj [
      ("default_locale", Json.str ""),
      ("prompt_suggestions", Json.arr [
        Json.obj [
          ("title", Json.arr [Json.str "Help me study",
                              Json.str "vocabulary for a college entrance exam"]),
          ("content", Json.str "Help me study vocabulary: write a sentence for me to fill in the blank, and I\x27ll try to pick the correct option.")],
        Json.obj [
          ("title", Json.arr [Json.str "Tell me a fun fact",
                              Json.str "about the Roman Empire"]),
          ("content", Json.str "Tell me a random fun fact about the Roman Empire")]
      ])
    ])
  ]

/-- A row of the `config` table (config.py lines 34-42). -/
structure ConfigRow where
  id : Nat
  data : Json
  version : Int
  createdAt : Nat
  updatedAt : Option Nat

/-- The state of the database behind the engine: the config rows in
insertion order, the next auto-assigned surrogate key, and the current
clock used for `datetime.now()`. -/
structure DBState where
  rows : List ConfigRow
  nextId : Nat
  now : Nat

/-- `db.query(Config).order_by(Config.id.desc()).first()`: the row with
the greatest id, if any (rows are kept in insertion order with strictly
increasing ids, so this is the most recently created row). -/
def orderByIdDescFirst (rows : List ConfigRow) : Option ConfigRow :=
  rows.foldl
    (fun acc r =>
      match acc with
      | Option.none => some r
      | some best => if best.id < r.id then some r else some best)
    Option.none

/-- The message of the AttributeError raised when a method such as
`query` is looked up on the generator object that get_db yields. -/
def generatorAttrError : PyError :=
  PyError.attributeError "generator object has no attribute query"

/-- get_config (config.py lines 62-73): inside `with get_db() as db`,
return DEFAULT_CONFIG if `db is None`; otherwise run
`db.query(Config).order_by(Config.id.desc()).first()` and return its
`data`, or DEFAULT_CONFIG when no row exists. On the generator object
that get_db actually yields, the attribute lookup `db.query` raises
AttributeError, which propagates out of the with block. -/
def get_config (env : Env) (st : DBState) : Except PyError Json :=
  let db := get_db_yield env
  if db = PyValue.none then
    Except.ok DEFAULT_CONFIG
  else if db = PyValue.generator then
    Except.error generatorAttrError
  else
    match orderByIdDescFirst st.rows with
    | some config_entry => Except.ok config_entry.data
    | Option.none => Except.ok DEFAULT_CONFIG

/-- save_to_db (config.py lines 76-94): inside `with get_db() as db`,
return silently if `db is None`; otherwise `db.query(Config).first()`,
then either insert a new row with version 0 or overwrite the existing
row's data and set updated_at, and commit. On the generator object that
get_db actually yields, `db.query` raises AttributeError before any
state is touched. Returns the outcome and the resulting database
state. -/
def save_to_db (data : Json) (env : Env) (st : DBState) :
    Except PyError Unit × DBState :=
  let db := get_db_yield env
  if db = PyValue.none then
    (Except.ok (), st)
  else if db = PyValue.generator then
    (Except.error generatorAttrError, st)
  else
    match st.rows.head? with
    | Option.none =>
      let new_config : ConfigRow :=
        { id := st.nextId, data := data, version := 0,
          createdAt := st.now, updatedAt := Option.none }
      (Except.ok (), { st with rows := st.rows ++ [new_config],
                               nextId := st.nextId + 1 })
    | some existing_config =>
      let updated : ConfigRow :=
        { existing_config with data := data, updatedAt := some st.now }
      (Except.ok (),
       { st with rows :=
           st.rows.map (fun r => if r.id = existing_config.id then updated else r) })

/-- reset_config (config.py lines 97-107): inside `with get_db() as db`,
return silently if `db is None`; otherwise delete every row of the
config table and commit. On the generator object that get_db actually
yields, `db.query` raises AttributeError before any row is deleted. -/
def reset_config (env : Env) (st : DBState) :
    Except PyError Unit × DBState :=
  let db := get_db_yield env
  if db = PyValue.none then
    (Except.ok (), st)
  else if db = PyValue.generator then
    (Except.error generatorAttrError, st)
  else
    (Except.ok (), { st with rows := [] })

/-- The two file paths the legacy-import block touches: the parsed JSON
content at DATA_DIR/config.json and at DATA_DIR/old_config.json
(`Option.none` = no file at that path). -/
structure FileSysState where
  configJson : Option Json
  oldConfigJson : Option Json

/-- The module-level legacy import block (config.py lines 110-115): if a
file exists at DATA_DIR/config.json, parse it, call save_to_db with its
contents, and then `os.rename` it to DATA_DIR/old_config.json. An
exception raised by save_to_db propagates out of the block before the
rename line runs, so the file stays at its original path. -/
def legacy_import (env : Env) (st : DBState) (fs : FileSysState) :
    Except PyError Unit × DBState × FileSysState :=
  match fs.configJson with
  | Option.none => (Except.ok (), st, fs)
  | some initial_data =>
    match save_to_db initial_data env st with
    | (Except.error e, st2) => (Except.error e, st2, fs)
    | (Except.ok _, st2) =>
      (Except.ok (), st2,
       { configJson := Option.none, oldConfigJson := some initial_data })

/-- Process-wide state of the config module after startup: the
environment, the database state, and the module-level CONFIG_DATA
binding (config.py line 118). -/
structure ProcState where
  env : Env
  dbState : DBState
  configData : Json

/-- save_to_db lifted to the process state: its body only talks to the
database session; it contains no assignment to CONFIG_DATA. -/
def save_to_db_proc (data : Json) (ps : ProcState) :
    Except PyError Unit × ProcState :=
  let r := save_to_db data ps.env ps.dbState
  (r.fst, { ps with dbState := r.snd })

/-- get_config lifted to the process state: it reads the database
through get_db only and never reads CONFIG_DATA. -/
def get_config_proc (ps : ProcState) : Except PyError Json :=
  get_config ps.env ps.dbState

/-- Boolean test that the first list is an initial segment of the
second, used to model substring scans on Python strings. -/
def listStarts : List Char → List Char → Bool
  | [], _ => true
  | _ :: _, [] => false
  | p :: ps, c :: cs => (p == c) && listStarts ps cs

/-- Python `pat in s` on strings: pat occurs as a contiguous substring
of s. -/
def containsSub (pat : List Char) : List Char → Bool
  | [] => listStarts pat []
  | c :: cs => listStarts pat (c :: cs) || containsSub pat cs

/-- Fuel-driven scan implementing Python `str.replace`: replace every
non-overlapping occurrence of pat, left to right. The fuel is the
length of the scanned list, which bounds the number of steps. -/
def replaceAux (pat rep : List Char) : Nat → List Char → List Char
  | _, [] => []
  | 0, s => s
  | fuel + 1, c :: rest =>
    if listStarts pat (c :: rest) then
      rep ++ replaceAux pat rep fuel (List.drop (pat.length - 1) rest)
    else
      c :: replaceAux pat rep fuel rest

/-- Python `s.replace(pat, rep)` for a non-empty pattern. -/
def pyReplace (s pat rep : String) : String :=
  String.mk (replaceAux pat.data rep.data s.data.length s.data)

/-- The URL handed to register_connection by handle_peewee_migration
(db.py line 58): `database_url.replace("postgresql://", "postgres://")`.
Note the direction: it rewrites the modern scheme down to the legacy
one, and leaves a legacy "postgres://" URL untouched. -/
def migration_register_url (database_url : String) : String :=
  pyReplace database_url "postgresql://" "postgres://"

/-- The URL handed to create_engine (db.py lines 70-91):
SQLALCHEMY_DATABASE_URL is DATABASE_URL itself; no rewriting is applied
before the engine is built. -/
def engineUrl (databaseUrl : String) : String :=
  databaseUrl

/-- Whether a connection string uses the modern "postgresql://"
scheme. -/
def usesModernScheme (u : String) : Bool :=
  listStarts ("postgresql://".data) u.data

/-- The peewee connection object created by register_connection, with
its `is_closed` flag. -/
structure PeeweeConn where
  isClosed : Bool

/-- Oracle for the two external effects inside the try block of
handle_peewee_migration: whether `register_connection(...)` raises, and
whether `router.run()` raises. -/
structure MigrationWorld where
  registerFails : Bool
  runFails : Bool

/-- `register_connection(url)` (db.py line 58): either raises, or
returns a freshly opened connection. -/
def register_connection (_url : String) (w : MigrationWorld) :
    Except PyError PeeweeConn :=
  if w.registerFails then Except.error (PyError.exc "register raised")
  else Except.ok { isClosed := false }

/-- `Router(db, ...).run()` (db.py lines 59-61): either raises, or
completes. -/
def router_run (w : MigrationWorld) : Except PyError Unit :=
  if w.runFails then Except.error (PyError.exc "migration raised")
  else Except.ok ()

/-- The try block of handle_peewee_migration (db.py lines 57-61),
starting from `db = None`: returns the final binding of `db`
(Option.none when register_connection raised before db was rebound)
together with the exception the block raises, if any. -/
def migration_try (url : String) (w : MigrationWorld) :
    Option PeeweeConn × Option PyError :=
  match register_connection (migration_register_url url) w with
  | Except.error e => (Option.none, some e)
  | Except.ok db =>
    match router_run w with
    | Except.error e => (some db, some e)
    | Except.ok _ => (some db, Option.none)

/-- The `except Exception as e` clause (db.py lines 62-63): any
exception coming out of the try block is logged at error level and
swallowed; the `db` binding is kept as it was. -/
def migration_except (r : Option PeeweeConn × Option PyError) :
    Option PeeweeConn × Option PyError :=
  (r.fst, Option.none)

/-- The finally block (db.py lines 64-67):
`if db and not db.is_closed(): db.close()` followed by
`assert db.is_closed(), "Database connection is still open."`.
When `db` is still None (register_connection raised), the assert line
evaluates `db.is_closed()`, an attribute access on None, and raises
AttributeError out of the finally block. Otherwise the connection is
closed if needed and the assert passes. -/
def migration_finally (db : Option PeeweeConn) :
    Except PyError (Option PeeweeConn) :=
  match db with
  | Option.none =>
    Except.error (PyError.attributeError "NoneType object has no attribute is_closed")
  | some c =>
    let c2 : PeeweeConn := if c.isClosed then c else { isClosed := true }
    if c2.isClosed then Except.ok (some c2)
    else Except.error (PyError.assertionError "Database connection is still open.")

/-- What a call to handle_peewee_migration does: how it returns (or
raises), and the final state of the `db` binding. -/
structure MigrationOutcome where
  result : Except PyError Unit
  db : Option PeeweeConn

/-- handle_peewee_migration (db.py lines 51-67): return early when the
URL is falsy or contains "sqlite:///:memory:"; otherwise run the
try/except/finally. An exception raised by the finally block replaces
any pending outcome; otherwise the (always swallowed) try-block
exception would be re-raised if it were still pending. -/
def handle_peewee_migration (database_url : String) (w : MigrationWorld) :
    MigrationOutcome :=
  if (database_url = "") || containsSub ("sqlite:///:memory:".data) database_url.data then
    { result := Except.ok (), db := Option.none }
  else
    let afterExcept := migration_except (migration_try database_url w)
    match migration_finally afterExcept.fst with
    | Except.error e => { result := Except.error e, db := afterExcept.fst }
    | Except.ok db2 =>
      { result :=
          match afterExcept.snd with
          | some e => Except.error e
          | Option.none => Except.ok ()
        , db := db2 }

/-- Split a character list on the dot character, as Python
`config_path.split(".")` does (the empty string yields a single empty
segment). The accumulator holds the current segment reversed. -/
def splitDotChars : List Char → List Char → List String
  | [], acc => [String.mk acc.reverse]
  | c :: cs, acc =>
    if c = '.' then String.mk acc.reverse :: splitDotChars cs []
    else splitDotChars cs (c :: acc)

/-- Python `config_path.split(".")`. -/
def pySplitDot (s : String) : List String :=
  splitDotChars s.data []

/-- Python equality of a JSON value against a string key (`key == v`
inside a list membership test): a Python str equals only an equal
str. -/
def jsonEqStr (v : Json) (key : String) : Bool :=
  match v with
  | Json.str t => t == key
  | _ => false

/-- Python `key in cur_config` for a string key: key lookup on a dict,
element membership on a list, substring test on a str; on a number,
boolean or None the membership test raises TypeError. -/
def pyContains (cur : Json) (key : String) : Except PyError Bool :=
  match cur with
  | Json.obj kvs => Except.ok (kvs.any (fun kv => kv.fst == key))
  | Json.arr xs => Except.ok (xs.any (fun v => jsonEqStr v key))
  | Json.str s => Except.ok (containsSub key.data s.data)
  | _ => Except.error (PyError.typeError "argument of type is not iterable")

/-- Python `cur_config[key]` for a string key: dict lookup (KeyError
when absent); subscripting a list or str with a str key, or a
non-subscriptable value, raises TypeError. -/
def pyIndex (cur : Json) (key : String) : Except PyError Json :=
  match cur with
  | Json.obj kvs =>
    match kvs.find? (fun kv => kv.fst == key) with
    | some kv => Except.ok kv.snd
    | Option.none => Except.error (PyError.keyError key)
  | _ => Except.error (PyError.typeError "value is not subscriptable with a str")

/-- The loop of get_config_value (config.py lines 126-130): for each
path segment, `if key in cur_config: cur_config = cur_config[key] else:
return None`; when the segments are exhausted, return the current
value. -/
def configWalk : List String → Json → Except PyError (Option Json)
  | [], cur => Except.ok (some cur)
  | key :: rest, cur =>
    match pyContains cur key with
    | Except.error e => Except.error e
    | Except.ok false => Except.ok Option.none
    | Except.ok true =>
      match pyIndex cur key with
      | Except.error e => Except.error e
      | Except.ok v => configWalk rest v

/-- get_config_value (config.py lines 120-131), as a function of the
CONFIG_DATA document it closes over and of the dotted path. -/
def get_config_value (configData : Json) (config_path : String) :
    Except PyError (Option Json) :=
  configWalk (pySplitDot config_path) configData

/-- Lookup of a key in a JSON object's field list. -/
def objLookup (kvs : List (String × Json)) (key : String) : Option Json :=
  match kvs.find? (fun kv => kv.fst == key) with
  | some kv => some kv.snd
  | Option.none => Option.none

/-- Modelled from the spec: getByPath as the spec words it - split the
path, walk nested mapping lookups, return the value when every segment
resolves and absent the moment any segment is missing. Used as the
comparison point for the amended C3. -/
def mappingWalk : List String → Json → Option Json
  | [], cur => some cur
  | key :: rest, cur =>
    match cur with
    | Json.obj kvs =>
      match objLookup kvs key with
      | some v => mappingWalk rest v
      | Option.none => Option.none
    | _ => Option.none

/-- The walk stays inside JSON objects: every value met while segments
remain is an object (a missing key inside an object ends the walk and
is allowed). -/
def objOnly : List String → Json → Bool
  | [], _ => true
  | key :: rest, cur =>
    match cur with
    | Json.obj kvs =>
      match objLookup kvs key with
      | some v => objOnly rest v
      | Option.none => true
    | _ => false

/-- An environment with no DATABASE_URL configured (degraded mode). -/
def envNone : Env := { databaseUrl := Option.none }

/-- An environment with a database configured. -/
def envDb : Env := { databaseUrl := some "sqlite:///data/webui.db" }

/-- An empty database. -/
def st0 : DBState := { rows := [], nextId := 1, now := 0 }

/-- The document of the legacy-import example in the spec. -/
def docA : Json := Json.obj [("a", Json.num 1)]

/-- The first example document of the spec for getByPath. -/
def uiX5 : Json := Json.obj [("ui", Json.obj [("x", Json.num 5)])]

/-- The second example document of the spec for getByPath. -/
def uiEmpty : Json := Json.obj [("ui", Json.obj [])]

/-- A stored configuration row holding docA. -/
def rowA : ConfigRow :=
  { id := 1, data := docA, version := 0, createdAt := 0, updatedAt := Option.none }

/-- A database already holding one configuration row. -/
def stWithRow : DBState := { rows := [rowA], nextId := 2, now := 1 }

/-- A file system with a legacy config.json holding docA and no
old_config.json. -/
def fsLegacy : FileSysState :=
  { configJson := some docA, oldConfigJson := Option.none }

/-- A pair satisfies the key predicate exactly when find? succeeds. -/
theorem any_key_eq_find_isSome (kvs : List (String × Json)) (key : String) :
    kvs.any (fun kv => kv.fst == key) = (kvs.find? (fun kv => kv.fst == key)).isSome := by
  induction kvs with
  | nil => rfl
  | cons kv rest ih =>
    cases h : (kv.fst == key) with
    | true => simp [List.any_cons, h, List.find?, ih]
    | false => simp [List.any_cons, h, List.find?, ih]

/-- As long as the walk only meets JSON objects, the loop of
get_config_value agrees with the spec-level mapping walk and raises
nothing. -/
theorem configWalk_objOnly (parts : List String) :
    ∀ d : Json, objOnly parts d = true →
      configWalk parts d = Except.ok (mappingWalk parts d) := by
  induction parts with
  | nil => intro d _; rfl
  | cons key rest ih =>
    intro d h
    cases d with
    | null => simp [objOnly] at h
    | bool b => simp [objOnly] at h
    | num n => simp [objOnly] at h
    | str s => simp [objOnly] at h
    | arr xs => simp [objOnly] at h
    | obj kvs =>
      cases hf : kvs.find? (fun kv => kv.fst == key) with
      | none =>
        have hany : kvs.any (fun kv => kv.fst == key) = false := by
          rw [any_key_eq_find_isSome, hf]; rfl
        simp [configWalk, pyContains, hany, mappingWalk, objLookup, hf]
      | some kv =>
        have hany : kvs.any (fun kv => kv.fst == key) = true := by
          rw [any_key_eq_find_isSome, hf]; rfl
        have h2 : objOnly rest kv.snd = true := by
          simpa [objOnly, objLookup, hf] using h
        simp [configWalk, pyContains, hany, pyIndex, hf, mappingWalk, objLookup,
              ih kv.snd h2]

/-- C1: the claim says that in degraded mode (no database URL) load,
save and reset throw no error and load returns DEFAULT_CONFIG. On the
code this fails: get_db yields the generator object returned by the
generator function get_session, the `db is None` check is false, and
the first method call on the generator raises AttributeError in all
three operations, so get_config never returns DEFAULT_CONFIG in
degraded mode. This theorem evaluates the code at the failing input. -/
theorem c1_degraded_calls_raise_attribute_error :
    get_config envNone st0 = Except.error generatorAttrError ∧
    (save_to_db docA envNone st0).fst = Except.error generatorAttrError ∧
    (reset_config envNone st0).fst = Except.error generatorAttrError ∧
    get_config envNone st0 ≠ Except.ok DEFAULT_CONFIG := by
  refine ⟨rfl, rfl, rfl, ?_⟩
  intro h
  exact Except.noConfusion h

/-- C2: the claim says that with a database configured, save(doc)
followed by load() returns doc. On the code this fails: save_to_db
raises AttributeError on the generator that get_db yields before
touching any row, and get_config raises the same way, so the round trip
never returns doc. This theorem evaluates the code at the failing
input. -/
theorem c2_save_then_load_raises_attribute_error :
    save_to_db docA envDb st0 = (Except.error generatorAttrError, st0) ∧
    get_config envDb ((save_to_db docA envDb st0).snd) = Except.error generatorAttrError ∧
    get_config envDb ((save_to_db docA envDb st0).snd) ≠ Except.ok docA := by
  refine ⟨rfl, rfl, ?_⟩
  intro h
  exact Except.noConfusion h

/-- C3 counterexample: the claim says get_config_value never throws and
returns absent the moment any segment is missing; but on the document
obj [ui: obj [x: 5]] and the path "ui.x.deep" the loop evaluates the
Python membership test `"deep" in 5`, which raises TypeError instead of
returning absent. -/
theorem c3_counterexample_type_error_on_non_mapping :
    get_config_value uiX5 "ui.x.deep" =
      Except.error (PyError.typeError "argument of type is not iterable") := rfl

/-- C3 (amended): get_config_value splits the path on ".", walks nested
mapping lookups, returns the nested value when every segment resolves
and absent (None) the moment a segment is missing from a mapping,
without error, provided every intermediate value the walk meets is a
mapping; when the walk reaches a non-mapping value with segments left,
the membership test raises TypeError instead of returning absent. -/
theorem c3_amended_walk_matches_spec_on_mappings (d : Json) (p : String)
    (h : objOnly (pySplitDot p) d = true) :
    get_config_value d p = Except.ok (mappingWalk (pySplitDot p) d) :=
  configWalk_objOnly (pySplitDot p) d h

/-- Witness for the amended C3 at the spec's own example: on the
document obj [ui: obj [x: 5]] and the path "ui.x" the hypothesis holds
and the lookup returns the value 5. -/
theorem c3_amended_walk_matches_spec_on_mappings_witness :
    (objOnly (pySplitDot "ui.x") uiX5 = true ∧
      get_config_value uiX5 "ui.x" = Except.ok (mappingWalk (pySplitDot "ui.x") uiX5)) ∧
    mappingWalk (pySplitDot "ui.x") uiX5 = some (Json.num 5) :=
  ⟨⟨by decide, c3_amended_walk_matches_spec_on_mappings uiX5 "ui.x" (by decide)⟩, rfl⟩

/-- C4: the claim says that with a database configured, reset followed
by load returns the default document. On the code this fails: starting
from a database holding one row, reset_config raises AttributeError on
the generator that get_db yields before deleting anything, and the
subsequent get_config raises the same way rather than returning
DEFAULT_CONFIG. This theorem evaluates the code at the failing
input. -/
theorem c4_reset_then_load_raises_attribute_error :
    reset_config envDb stWithRow = (Except.error generatorAttrError, stWithRow) ∧
    get_config envDb ((reset_config envDb stWithRow).snd) = Except.error generatorAttrError ∧
    get_config envDb ((reset_config envDb stWithRow).snd) ≠ Except.ok DEFAULT_CONFIG := by
  refine ⟨rfl, rfl, ?_⟩
  intro h
  exact Except.noConfusion h

/-- C5: the claim says the startup import parses the legacy file, saves
its contents and renames the file. On the code this fails: with a
database configured and config.json holding the document obj [a: 1],
save_to_db raises AttributeError, the exception propagates out of
the startup block before the rename line, the database is unchanged, the
file is still at its original path and no renamed file appears. This
theorem evaluates the code at the failing input. -/
theorem c5_legacy_import_raises_and_never_renames :
    legacy_import envDb st0 fsLegacy = (Except.error generatorAttrError, st0, fsLegacy) ∧
    (legacy_import envDb st0 fsLegacy).snd.snd.configJson = some docA ∧
    (legacy_import envDb st0 fsLegacy).snd.snd.oldConfigJson = Option.none :=
  ⟨rfl, rfl, rfl⟩

/-- C6: the claim says a legacy "postgres://" URL is normalized to
"postgresql://" for both the engine and the migration connection. On
the code this fails: the engine receives DATABASE_URL unchanged, and
the migration replace runs in the opposite direction - it rewrites
"postgresql://" down to "postgres://" and leaves a legacy
"postgres://" URL untouched - so neither handed-over URL ever uses the
modern scheme for a legacy input. This theorem evaluates the code at
the failing input. -/
theorem c6_legacy_scheme_never_normalized :
    migration_register_url "postgres://user@host/db" = "postgres://user@host/db" ∧
    engineUrl "postgres://user@host/db" = "postgres://user@host/db" ∧
    usesModernScheme (migration_register_url "postgres://user@host/db") = false ∧
    usesModernScheme (engineUrl "postgres://user@host/db") = false ∧
    migration_register_url "postgresql://user@host/db" = "postgres://user@host/db" :=
  ⟨rfl, rfl, rfl, rfl, rfl⟩

/-- C7: the claim says every path reaching the finally block returns
with the connection closed and the closing assertion never itself
raises. On the code this fails on the path where register_connection
raises: db is still None there, so the assert line evaluates
`db.is_closed()` on None and the finally block raises AttributeError
instead of returning. This theorem evaluates the code at the failing
input. -/
theorem c7_finally_assert_raises_when_register_fails :
    handle_peewee_migration "postgres://user@host/db"
        { registerFails := true, runFails := false } =
      { result := Except.error
          (PyError.attributeError "NoneType object has no attribute is_closed"),
        db := Option.none } := rfl

/-- C8: CONFIG_DATA is a frozen snapshot after startup: a save_to_db
call leaves CONFIG_DATA and every get_config_value result unchanged
(its body contains no assignment to the cache), and get_config reads
only the environment and the database state - changing the cached
CONFIG_DATA does not change what a fresh get_config call returns. -/
theorem c8_config_data_frozen_after_save :
    ∀ (data : Json) (ps : ProcState) (path : String) (cd : Json),
      (save_to_db_proc data ps).snd.configData = ps.configData ∧
      get_config_value (save_to_db_proc data ps).snd.configData path
        = get_config_value ps.configData path ∧
      get_config_proc { ps with configData := cd } = get_config_proc ps := by
  intro data ps path cd
  exact ⟨rfl, rfl, rfl⟩

/-- C9: for every configuration (database URL set, unset or empty),
get_db yields exactly the value produced by calling the generator
function get_session, which is a generator object and never None; hence
the `db is None` branch of get_config is not taken and the generator is
then used as a session, which raises AttributeError. -/
theorem c9_get_db_yields_generator_never_none :
    ∀ (env : Env) (st : DBState),
      get_db_yield env = get_session_call env ∧
      get_db_yield env = PyValue.generator ∧
      get_db_yield env ≠ PyValue.none ∧
      get_config env st = Except.error generatorAttrError := by
  intro env st
  refine ⟨rfl, rfl, ?_, rfl⟩
  intro h
  exact PyValue.noConfusion h

/-- C10: every exception raised inside the try block of
handle_peewee_migration - from register_connection or from the
migration run - is caught by the except clause and swallowed, so after
the except clause no try-block exception is pending, and the only error
the whole routine can ever propagate is the AttributeError raised by
its own finally block, never a migration failure. -/
theorem c10_try_block_exceptions_swallowed :
    ∀ (url : String) (w : MigrationWorld),
      (migration_except (migration_try url w)).snd = Option.none ∧
      ((handle_peewee_migration url w).result = Except.ok () ∨
        (handle_peewee_migration url w).result =
          Except.error (PyError.attributeError "NoneType object has no attribute is_closed")) := by
  intro url w
  refine ⟨rfl, ?_⟩
  unfold handle_peewee_migration
  split
  · left; rfl
  · rcases w with ⟨rf, runf⟩
    cases rf <;> cases runf <;>
      simp [migration_try, migration_except, migration_finally,
            register_connection, router_run]


